import Mathlib

/-!
Verification development for the PDF text/watermark overlay service
(`src/pages/api/processPdf.js` and `src/pages/api/addText.js`).

The JavaScript handlers are shallowly embedded: JS runtime values that can
reach the numeric coercions are modelled by `JSVal`, JS `Number(...)`
conversion by `jsNumber` (with `none` standing for a non-finite result, i.e.
`NaN`/`Infinity`), and each handler becomes a pure function from a loaded
document (a list of pages with their sizes) and a parsed request body to a
result that records the HTTP outcome and the exact ordered sequence of
`page.drawText` calls that were issued.
-/

/-- A JavaScript runtime value, restricted to the shapes that can flow into
the handlers' scalar fields. `num` carries a finite number; `nan` stands for
any non-finite number value (`NaN`, `±Infinity`), which is still of
`typeof === "number"`. -/
inductive JSVal where
  | undef
  | null
  | num (q : ℚ)
  | nan
  | str (s : String)
  | boolVal (b : Bool)
deriving DecidableEq

/-- JS whitespace for the purposes of `String` → number conversion. -/
def isJsSpace (c : Char) : Bool := c = ' ' ∨ c = '\t' ∨ c = '\n' ∨ c = '\r'

/-- Trim JS whitespace from both ends of a character list. -/
def jsTrim (cs : List Char) : List Char :=
  ((cs.dropWhile isJsSpace).reverse.dropWhile isJsSpace).reverse

/-- Numeric value of a digit list, assuming every element is a digit. -/
def natFromDigits (cs : List Char) : ℕ :=
  cs.foldl (fun a c => a * 10 + (c.toNat - 48)) 0

/-- JS `Number(string)` conversion, restricted to plain decimal numerals
(optional sign, integer part, optional fractional part). Strings outside
this grammar convert to `NaN` (`none`), the empty / all-whitespace string
converts to `0`, exactly as in JS. Exponent/hex forms never occur in the
claims and are modelled as `NaN`-free territory we do not enter. -/
def parseNumLit (s : String) : Option ℚ :=
  let t := jsTrim s.toList
  if t = [] then some 0
  else
    let signAndRest : ℚ × List Char :=
      match t with
      | '-' :: cs => (-1, cs)
      | '+' :: cs => (1, cs)
      | cs => (1, cs)
    let sign := signAndRest.1
    let rest := signAndRest.2
    let intPart := rest.takeWhile Char.isDigit
    let rem := rest.dropWhile Char.isDigit
    match rem with
    | [] =>
      if intPart = [] then none
      else some (sign * natFromDigits intPart)
    | '.' :: frac =>
      if frac.all Char.isDigit ∧ (intPart ≠ [] ∨ frac ≠ []) then
        some (sign * ((natFromDigits intPart : ℚ) +
          (natFromDigits frac : ℚ) / (10 : ℚ) ^ frac.length))
      else none
    | _ => none

/-- JS `Number(v)`: `some q` when the result is a finite number `q`, `none`
when the result is not finite (`NaN`, `±Infinity`). -/
def jsNumber : JSVal → Option ℚ
  | .undef => none
  | .null => some 0
  | .num q => some q
  | .nan => none
  | .str s => parseNumLit s
  | .boolVal b => some (if b then 1 else 0)

/-- `Number.isFinite(Number(v)) ? Number(v) : d` — the coercion pattern used
throughout both handlers for font size, rotation and coordinates. -/
def coerceNum (v : JSVal) (d : ℚ) : ℚ :=
  match jsNumber v with
  | some n => n
  | none => d

/-- `clamp01(v, fallback)` from both files: coerce to a number, take the
fallback when non-finite, clamp into `[0,1]` otherwise. -/
def clamp01 (v : JSVal) (fallback : ℚ) : ℚ :=
  match jsNumber v with
  | none => fallback
  | some n => max 0 (min 1 n)

/-- `typeof v === "number"` (true for `NaN` as well). -/
def typeofNum : JSVal → Bool
  | .num _ => true
  | .nan => true
  | _ => false

/-- A resolved RGB colour, each channel a number. -/
structure Color where
  r : ℚ
  g : ℚ
  b : ℚ
deriving DecidableEq

/-- A raw `{r,g,b}` object from the request, channels still uncoerced. -/
structure RawColor where
  r : JSVal
  g : JSVal
  b : JSVal
deriving DecidableEq

/-- A page of the loaded document: only its size is observable to the
handlers (`page.getSize()`). -/
structure Page where
  width : ℚ
  height : ℚ
deriving DecidableEq, Inhabited

/-- One element of the `texts` array (also used for the legacy single-text
config object both handlers build). `text = ""` models an absent or empty
`text` field (both are falsy in JS). -/
structure TextCfg where
  text : String
  x : JSVal
  y : JSVal
  pageNumber : JSVal
  fontSize : JSVal
  color : Option RawColor
  opacity : JSVal
  rotate : JSVal
deriving DecidableEq

/-- The `watermark` request object. `position = ""` models an absent or
falsy `position` (the code reads `wm.position || "center"`). `applyToAll`
is `none` when the field is absent. -/
structure WatermarkCfg where
  text : String
  applyToAll : Option Bool
  fontSize : JSVal
  opacity : JSVal
  rotate : JSVal
  color : Option RawColor
  position : String
deriving DecidableEq

/-- A parsed request body, shared by both endpoints. `texts = none` models
`body.texts` not being an array; `text = none` models an absent (or
non-string, for processPdf) top-level `text`. -/
structure Body where
  texts : Option (List TextCfg) := none
  text : Option String := none
  x : JSVal := .undef
  y : JSVal := .undef
  pageNumber : JSVal := .undef
  fontSize : JSVal := .undef
  opacity : JSVal := .undef
  rotate : JSVal := .undef
  color : Option RawColor := none
  watermark : Option WatermarkCfg := none

/-- One observed `page.drawText` invocation. `pageIdx` records which page of
the document was drawn on; `x`/`y` are kept as JS values because `addText`'s
`drawOne` can pass `NaN` through unchanged; `rotate = none` models passing
`undefined` for the rotation option. -/
structure DrawOp where
  pageIdx : ℕ
  text : String
  x : JSVal
  y : JSVal
  size : ℚ
  color : Color
  opacity : ℚ
  rotate : Option ℚ
deriving DecidableEq

/-- Page selector after reading `pageNumber`: `-1` broadcasts, anything else
targets a single (possibly non-integer!) index. -/
inductive PageSel where
  | allPages
  | singlePage (i : ℚ)
deriving DecidableEq

/-- `Number.isFinite(Number(t.pageNumber)) ? Number(t.pageNumber) : 0`. -/
def resolvePN (v : JSVal) : ℚ := coerceNum v 0

/-- The page-targeting logic both handlers share: `-1` means all pages,
otherwise `Math.max(0, Math.min(pageCount - 1, pn))`. -/
def resolvePage (v : JSVal) (pageCount : ℕ) : PageSel :=
  let pn := resolvePN v
  if pn = -1 then .allPages
  else .singlePage (max 0 (min ((pageCount : ℚ) - 1) pn))

/-- JS array indexing `pages[q]`: defined exactly when `q` is an integer in
`[0, len)`; otherwise the access yields `undefined`. -/
def qIndex (len : ℕ) (q : ℚ) : Option ℕ :=
  if q.den = 1 ∧ 0 ≤ q.num ∧ q.num < (len : ℤ) then some q.num.toNat else none

/-- Outcome of a handler run (after the PDF was loaded successfully):
HTTP 400, HTTP 500 (an exception reached the catch-all), or HTTP 200 with
the ordered list of draw calls and the reported page count. -/
inductive HResult where
  | badRequest
  | serverError
  | ok (ops : List DrawOp) (pageCount : ℕ)
deriving DecidableEq

/-- Pair every page with its index, starting from `n`. -/
def enumFromN (n : ℕ) : List Page → List (ℕ × Page)
  | [] => []
  | p :: ps => (n, p) :: enumFromN (n + 1) ps

/-- Pages paired with their zero-based indices (`pages.forEach`). -/
def pageEnum (doc : List Page) : List (ℕ × Page) := enumFromN 0 doc

/-- Whether the body carries a watermark with non-empty text
(`body.watermark && body.watermark.text`). -/
def hasWmText (body : Body) : Bool :=
  match body.watermark with
  | some wm => if wm.text = "" then false else true
  | none => false

/-- The single-text config object the legacy branch of each handler builds
from the top-level fields (`pageNumber` is the already-coerced `pn`). -/
def legacyCfg (body : Body) (s : String) : TextCfg :=
  { text := s, x := body.x, y := body.y,
    pageNumber := .num (resolvePN body.pageNumber),
    fontSize := body.fontSize, color := body.color,
    opacity := body.opacity, rotate := body.rotate }

namespace ProcessPdf

/-- `toColor(c, fallback)` from processPdf.js: a non-object input is replaced
by the fallback object, then each channel is clamped with the fallback's
corresponding channel as its non-finite default. -/
def toColor (c : Option RawColor) (fb : Color) : Color :=
  match c with
  | some src => ⟨clamp01 src.r fb.r, clamp01 src.g fb.g, clamp01 src.b fb.b⟩
  | none => ⟨clamp01 (.num fb.r) fb.r, clamp01 (.num fb.g) fb.g, clamp01 (.num fb.b) fb.b⟩

/-- The draw call `drawTextCfg` issues for config `t` on page `i`. -/
def mkOp (i : ℕ) (t : TextCfg) : DrawOp :=
  { pageIdx := i, text := t.text,
    x := .num (coerceNum t.x 50),
    y := .num (coerceNum t.y 750),
    size := coerceNum t.fontSize 12,
    color := toColor t.color ⟨0, 0, 0⟩,
    opacity := clamp01 t.opacity 1,
    rotate := (fun r => if r = 0 then none else some r) (coerceNum t.rotate 0) }

/-- Apply one text config: resolve the page selector, then draw. The
`text` falsiness check happens before the page object is touched, so an
empty text never faults; drawing on `pages[q] = undefined` throws
(modelled as `none`, surfaced by the handler as a 500). -/
def applyTextCfg (doc : List Page) (t : TextCfg) : Option (List DrawOp) :=
  match resolvePage t.pageNumber doc.length with
  | .allPages =>
    some (if t.text = "" then [] else (List.range doc.length).map fun i => mkOp i t)
  | .singlePage q =>
    if t.text = "" then some []
    else
      match qIndex doc.length q with
      | some i => some [mkOp i t]
      | none => none

/-- The `for (const t of body.texts)` loop: draw calls accumulate in order;
a throw anywhere aborts the request. -/
def applyTexts (doc : List Page) : List TextCfg → Option (List DrawOp)
  | [] => some []
  | t :: ts =>
    match applyTextCfg doc t with
    | none => none
    | some ops =>
      match applyTexts doc ts with
      | none => none
      | some rest => some (ops ++ rest)

/-- `drawWm` from processPdf.js: the watermark draw call for page `page`
(at document index `i`). Note the "center" branch starts from
`x = width` (the literal code is `let x = width ;`), not `width / 2`. -/
def drawWm (wm : WatermarkCfg) (i : ℕ) (page : Page) : DrawOp :=
  let wmSize := coerceNum wm.fontSize 48
  let wmOpacity := clamp01 wm.opacity (3 / 20)
  let wmRotate := coerceNum wm.rotate 45
  let wmColor := toColor wm.color ⟨1 / 2, 1 / 2, 1 / 2⟩
  let pos := if wm.position = "" then "center" else wm.position
  let pad : ℚ := 24
  let x0 : ℚ :=
    if pos = "top-left" then pad
    else if pos = "top-right" then page.width - pad
    else if pos = "bottom-left" then pad
    else if pos = "bottom-right" then page.width - pad
    else page.width
  let y0 : ℚ :=
    if pos = "top-left" then page.height - pad
    else if pos = "top-right" then page.height - pad
    else if pos = "bottom-left" then pad
    else if pos = "bottom-right" then pad
    else page.height / 2
  let shift := ((wm.text.length : ℚ) * wmSize) / 6
  let finalX := if pos = "center" then x0 - shift else x0
  { pageIdx := i, text := wm.text, x := .num finalX, y := .num y0,
    size := wmSize, color := wmColor, opacity := wmOpacity,
    rotate := some wmRotate }

/-- The watermark draw calls processPdf issues: all pages when
`applyToAll !== false`, else only `pages[0]`. -/
def wmOps (doc : List Page) (body : Body) : List DrawOp :=
  match body.watermark with
  | some wm =>
    if wm.text = "" then []
    else if wm.applyToAll = some false then [drawWm wm 0 doc.headI]
    else (pageEnum doc).map fun ip => drawWm wm ip.1 ip.2
  | none => []

/-- `typeof body.text === "string" && body.text.trim() !== ""`. -/
def textIsUsable : Option String → Bool
  | some s => if jsTrim s.toList = [] then false else true
  | none => false

/-- The processPdf.js handler, from the point where the PDF has been
loaded: zero pages → 400; watermark first; then the `texts` array, or the
legacy single-text mode, or (failing both) watermark-only / 400. -/
def handler (doc : List Page) (body : Body) : HResult :=
  if doc.length = 0 then .badRequest
  else
    let wm := wmOps doc body
    match body.texts with
    | some ts =>
      match applyTexts doc ts with
      | some ops => .ok (wm ++ ops) doc.length
      | none => .serverError
    | none =>
      if textIsUsable body.text then
        match applyTextCfg doc (legacyCfg body (body.text.getD "")) with
        | some ops => .ok (wm ++ ops) doc.length
        | none => .serverError
      else if hasWmText body then .ok wm doc.length
      else .badRequest

/-- Which input source the handler decodes (`pdfBase64` branch first). A
field is `none` when absent or not a string; a truthy string is non-empty. -/
inductive PdfSource where
  | fromBase64 (s : String)
  | fromUrl (u : String)
  | missing
deriving DecidableEq

/-- Source selection from processPdf.js: `body.pdfBase64` (truthy string)
wins; otherwise `body.pdfUrl`; otherwise 400. -/
def selectSource (pdfBase64 pdfUrl : Option String) : PdfSource :=
  match pdfBase64 with
  | some s => if s ≠ "" then .fromBase64 s else selectUrl pdfUrl
  | none => selectUrl pdfUrl
where
  selectUrl : Option String → PdfSource
    | some u => if u ≠ "" then .fromUrl u else .missing
    | none => .missing

end ProcessPdf

namespace AddText

/-- `toColor(c)` from addText.js: a non-object input yields black, and each
channel's non-finite fallback is `0` — not a caller-supplied default. -/
def toColor (c : Option RawColor) : Color :=
  match c with
  | some src => ⟨clamp01 src.r 0, clamp01 src.g 0, clamp01 src.b 0⟩
  | none => ⟨0, 0, 0⟩

/-- The draw call `drawOne` issues on page `i`: coordinates are used only
when `typeof` them is `"number"` (so numeric strings fall back to the
default, and `NaN` passes through), the rest matches processPdf. -/
def mkOp (i : ℕ) (t : TextCfg) : DrawOp :=
  { pageIdx := i, text := t.text,
    x := if typeofNum t.x then t.x else .num 50,
    y := if typeofNum t.y then t.y else .num 750,
    size := coerceNum t.fontSize 12,
    color := toColor t.color,
    opacity := clamp01 t.opacity 1,
    rotate := (fun r => if r = 0 then none else some r) (coerceNum t.rotate 0) }

/-- Apply one text config in addText.js (same page targeting as
processPdf, different draw defaults). -/
def applyTextCfg (doc : List Page) (t : TextCfg) : Option (List DrawOp) :=
  match resolvePage t.pageNumber doc.length with
  | .allPages =>
    some (if t.text = "" then [] else (List.range doc.length).map fun i => mkOp i t)
  | .singlePage q =>
    if t.text = "" then some []
    else
      match qIndex doc.length q with
      | some i => some [mkOp i t]
      | none => none

/-- The `for (const t of body.texts)` loop in addText.js. -/
def applyTexts (doc : List Page) : List TextCfg → Option (List DrawOp)
  | [] => some []
  | t :: ts =>
    match applyTextCfg doc t with
    | none => none
    | some ops =>
      match applyTexts doc ts with
      | none => none
      | some rest => some (ops ++ rest)

/-- The watermark draw call in addText.js: always centered at
`width/2 - length*size/6`, `height/2`; when `wm.color` is falsy the whole
default gray object is substituted before the per-channel coercion. -/
def drawWm (wm : WatermarkCfg) (i : ℕ) (page : Page) : DrawOp :=
  let wmSize := coerceNum wm.fontSize 48
  let wmOpacity := clamp01 wm.opacity (3 / 20)
  let wmRotate := coerceNum wm.rotate 45
  let wmColor := toColor (some (wm.color.getD ⟨.num (1 / 2), .num (1 / 2), .num (1 / 2)⟩))
  { pageIdx := i, text := wm.text,
    x := .num (page.width / 2 - ((wm.text.length : ℚ) * wmSize) / 6),
    y := .num (page.height / 2),
    size := wmSize, color := wmColor, opacity := wmOpacity,
    rotate := some wmRotate }

/-- The watermark draw calls addText issues: unconditionally one per page
(the endpoint has no `applyToAll` handling). -/
def wmOps (doc : List Page) (body : Body) : List DrawOp :=
  match body.watermark with
  | some wm =>
    if wm.text = "" then []
    else (pageEnum doc).map fun ip => drawWm wm ip.1 ip.2
  | none => []

/-- Truthiness of the legacy `text` field (`if (!text)`). -/
def textIsUsable : Option String → Bool
  | some s => if s = "" then false else true
  | none => false

/-- The addText.js handler, from the point where the PDF has been loaded:
zero pages → 400; watermark on every page; then the `texts` array only when
non-empty (`Array.isArray(body.texts) && body.texts.length`), else the
legacy single-text mode, else watermark-only / 400. -/
def handler (doc : List Page) (body : Body) : HResult :=
  if doc.length = 0 then .badRequest
  else
    let wm := wmOps doc body
    let useTexts : Bool :=
      match body.texts with
      | some ts => if ts.length = 0 then false else true
      | none => false
    if useTexts then
      match applyTexts doc (body.texts.getD []) with
      | some ops => .ok (wm ++ ops) doc.length
      | none => .serverError
    else if textIsUsable body.text then
      match applyTextCfg doc (legacyCfg body (body.text.getD "")) with
      | some ops => .ok (wm ++ ops) doc.length
      | none => .serverError
    else if hasWmText body then .ok wm doc.length
    else .badRequest

end AddText

/-! ### Concrete fixtures used by witnesses and counterexamples -/

/-- A one-page document, 600 by 400. -/
def onePage : List Page := [⟨600, 400⟩]

/-- A two-page document. -/
def twoPages : List Page := [⟨600, 400⟩, ⟨595, 842⟩]

/-- A three-page document. -/
def threePages : List Page := [⟨600, 400⟩, ⟨600, 400⟩, ⟨600, 400⟩]

/-- Watermark request: text "ABC", fontSize 48, position unspecified. -/
def wmABC : WatermarkCfg :=
  { text := "ABC", applyToAll := none, fontSize := .num 48,
    opacity := .undef, rotate := .undef, color := none, position := "" }

/-- Watermark request with `applyToAll: false`. -/
def wmFalse : WatermarkCfg :=
  { text := "W", applyToAll := some false, fontSize := .undef,
    opacity := .undef, rotate := .undef, color := none, position := "" }

/-- Watermark request with `applyToAll` absent. -/
def wmCenter : WatermarkCfg :=
  { text := "W", applyToAll := none, fontSize := .undef,
    opacity := .undef, rotate := .undef, color := none, position := "" }

/-- Watermark whose colour object has a non-numeric `r` channel. -/
def wmGrayBad : WatermarkCfg :=
  { text := "W", applyToAll := none, fontSize := .undef,
    opacity := .undef, rotate := .undef,
    color := some ⟨.undef, .num (1 / 5), .num (1 / 5)⟩, position := "" }

/-- A body that carries only a watermark. -/
def wmOnly (wm : WatermarkCfg) : Body := { watermark := some wm }

/-- Text overlay with a fractional `pageNumber` of 1.5. -/
def tHalf : TextCfg :=
  { text := "A", x := .undef, y := .undef, pageNumber := .num (3 / 2),
    fontSize := .undef, color := none, opacity := .undef, rotate := .undef }

/-- Text overlay whose `x` is the numeric string "100". -/
def tStr100 : TextCfg :=
  { text := "A", x := .str "100", y := .undef, pageNumber := .undef,
    fontSize := .undef, color := none, opacity := .undef, rotate := .undef }

/-- Text overlay whose `x` is `NaN`. -/
def tNanX : TextCfg :=
  { text := "A", x := .nan, y := .undef, pageNumber := .undef,
    fontSize := .undef, color := none, opacity := .undef, rotate := .undef }

/-- The legacy single-text request shape with text "X" on page 0. -/
def legacyBody (x y fs op rot : JSVal) (c : Option RawColor) (w : Option WatermarkCfg) : Body :=
  { texts := none, text := some "X", x := x, y := y, pageNumber := .num 0,
    fontSize := fs, opacity := op, rotate := rot, color := c, watermark := w }

/-- The equivalent one-element `texts` request shape. -/
def textsBody (x y fs op rot : JSVal) (c : Option RawColor) (w : Option WatermarkCfg) : Body :=
  { texts := some [(⟨"X", x, y, .num 0, fs, c, op, rot⟩ : TextCfg)],
    watermark := w }

/-- Number of draw calls in an `ok` result (0 for an error result). -/
def okOpsCount : HResult → ℕ
  | .ok ops _ => ops.length
  | _ => 0

/-! ### Helper lemmas -/

theorem aux_resolvePN_num (q : ℚ) : resolvePN (.num q) = q := rfl

theorem aux_enumFromN_fst :
    ∀ (n : ℕ) (doc : List Page),
      ((enumFromN n doc).map fun ip => ip.1) = List.range' n doc.length := by
  intro n doc
  induction doc generalizing n with
  | nil => simp [enumFromN]
  | cons p ps ih => simp [enumFromN, ih, List.range'_succ]

theorem aux_pageEnum_pageIdx (f : ℕ → Page → DrawOp) (hf : ∀ i p, (f i p).pageIdx = i)
    (doc : List Page) :
    ((pageEnum doc).map fun ip => (f ip.1 ip.2).pageIdx) = List.range doc.length := by
  have h : ((pageEnum doc).map fun ip => (f ip.1 ip.2).pageIdx)
      = (pageEnum doc).map fun ip => ip.1 := by
    refine List.map_congr_left ?_
    intro ip _
    exact hf ip.1 ip.2
  rw [h, pageEnum, aux_enumFromN_fst 0 doc, List.range_eq_range']

/-! ### Claim theorems -/

/-- C1: the spec (and addText.js) put the center-position watermark anchor at
`x = width/2 - characterCount*fontSize/6`, `y = height/2`; processPdf.js's
`drawWm` instead starts the center case from `x = width`, so for text "ABC"
at fontSize 48 on a 600-wide page it anchors at `x = 600 - 24 = 576`, not
`600/2 - 24 = 276`. addText.js does satisfy the claim on the same input. -/
theorem c1_center_anchor_code_bug :
    (ProcessPdf.drawWm wmABC 0 ⟨600, 400⟩).x = .num 576
      ∧ (ProcessPdf.drawWm wmABC 0 ⟨600, 400⟩).x ≠ .num (600 / 2 - 24)
      ∧ (ProcessPdf.drawWm wmABC 0 ⟨600, 400⟩).y = .num 200
      ∧ (AddText.drawWm wmABC 0 ⟨600, 400⟩).x = .num (600 / 2 - 24)
      ∧ (AddText.drawWm wmABC 0 ⟨600, 400⟩).y = .num 200 := by
  have h3 : ("ABC".length : ℚ) = 3 := by norm_num [String.length]
  refine ⟨?_, ?_, ?_, ?_, ?_⟩ <;>
    · simp [ProcessPdf.drawWm, AddText.drawWm, wmABC, coerceNum, jsNumber, h3]
      norm_num

/-- C3: for every document with `N ≥ 1` pages, a `pageNumber` of -1 resolves
to the all-pages selector; an in-range integer resolves to itself; any other
integer is clamped to the nearest boundary of `[0, N-1]`. -/
theorem c3_page_selector_resolution (N : ℕ) (hN : 1 ≤ N) :
    resolvePage (.num (-1)) N = .allPages
      ∧ (∀ k : ℕ, k < N → resolvePage (.num k) N = .singlePage k)
      ∧ (∀ k : ℤ, k < 0 → k ≠ -1 → resolvePage (.num k) N = .singlePage 0)
      ∧ (∀ k : ℤ, (N : ℤ) ≤ k → resolvePage (.num k) N = .singlePage ((N : ℚ) - 1)) := by
  have hN' : (1 : ℚ) ≤ (N : ℚ) := by exact_mod_cast hN
  refine ⟨by simp [resolvePage, aux_resolvePN_num], ?_, ?_, ?_⟩
  · intro k hk
    have h0 : (0 : ℚ) ≤ (k : ℚ) := by positivity
    have hne : ((k : ℚ)) ≠ -1 := by intro h; rw [h] at h0; norm_num at h0
    have h1 : (k : ℚ) ≤ (N : ℚ) - 1 := by
      have : ((k : ℚ) + 1) ≤ (N : ℚ) := by exact_mod_cast Nat.succ_le_of_lt hk
      linarith
    simp only [resolvePage, aux_resolvePN_num, if_neg hne]
    rw [min_eq_right h1, max_eq_right h0]
  · intro k hk hne
    have hne' : ((k : ℚ)) ≠ -1 := by exact_mod_cast hne
    have h1 : (k : ℚ) ≤ (N : ℚ) - 1 := by
      have : (k : ℚ) < 0 := by exact_mod_cast hk
      linarith
    have h0 : (k : ℚ) ≤ 0 := by
      have : (k : ℚ) < 0 := by exact_mod_cast hk
      linarith
    simp only [resolvePage, aux_resolvePN_num, if_neg hne']
    rw [min_eq_right h1, max_eq_left h0]
  · intro k hk
    have hk' : (N : ℚ) ≤ (k : ℚ) := by exact_mod_cast hk
    have hne : ((k : ℚ)) ≠ -1 := by intro h; rw [h] at hk'; linarith
    have h1 : (N : ℚ) - 1 ≤ (k : ℚ) := by linarith
    have h0 : (0 : ℚ) ≤ (N : ℚ) - 1 := by linarith
    simp only [resolvePage, aux_resolvePN_num, if_neg hne]
    rw [min_eq_left h1, max_eq_right h0]

/-- C3 witness: with 3 pages, -5 clamps to page 0. -/
theorem c3_page_selector_resolution_witness :
    resolvePage (.num ((-5 : ℤ) : ℚ)) 3 = .singlePage 0 :=
  (c3_page_selector_resolution 3 (by norm_num)).2.2.1 (-5) (by norm_num) (by norm_num)

/-- C6 (amended, processPdf part): a valid document with an empty `texts`
array and no watermark is processed by processPdf with no draw calls and the
input's page count reported; addText instead rejects it (see the
counterexample). -/
theorem c6_empty_texts_processpdf_ok (doc : List Page) (hd : doc ≠ []) :
    ProcessPdf.handler doc { texts := some [] } = .ok [] doc.length := by
  have h0 : doc.length ≠ 0 := by simpa [List.length_eq_zero] using hd
  simp [ProcessPdf.handler, ProcessPdf.applyTexts, ProcessPdf.wmOps, h0]

/-- C6 witness: the two-page document round-trips with page count 2. -/
theorem c6_empty_texts_processpdf_ok_witness :
    ProcessPdf.handler twoPages { texts := some [] } = .ok [] 2 :=
  c6_empty_texts_processpdf_ok twoPages (by decide)

/-- C6 counterexample: addText.js answers 400 to the same request — an empty
`texts` array falls through to the legacy mode, which finds neither `text`
nor a watermark. -/
theorem c6_empty_texts_addtext_counterexample :
    AddText.handler twoPages { texts := some [] } = .badRequest := rfl

/-- C7 (amended): a request with `texts` absent, no usable top-level `text`
and no watermark text is rejected with 400 by both handlers; but when
`texts` is present as an (even empty) array, processPdf accepts the request
and returns the document unchanged (see the counterexample). -/
theorem c7_no_instruction_rejected (doc : List Page) (hd : doc ≠ []) (body : Body)
    (hts : body.texts = none)
    (ht : body.text = none ∨ body.text = some "")
    (hwm : ∀ wm, body.watermark = some wm → wm.text = "") :
    ProcessPdf.handler doc body = .badRequest ∧ AddText.handler doc body = .badRequest := by
  have h0 : doc.length ≠ 0 := by simpa [List.length_eq_zero] using hd
  have hwm' : hasWmText body = false := by
    unfold hasWmText
    cases hb : body.watermark with
    | none => rfl
    | some wm => simp [hwm wm hb]
  have htP : ProcessPdf.textIsUsable body.text = false := by
    rcases ht with h | h <;> simp [h, ProcessPdf.textIsUsable, jsTrim]
  have htA : AddText.textIsUsable body.text = false := by
    rcases ht with h | h <;> simp [h, AddText.textIsUsable]
  constructor
  · simp [ProcessPdf.handler, h0, hts, htP, hwm']
  · simp [AddText.handler, h0, hts, htA, hwm']

/-- C7 witness: an entirely empty request body on a one-page document is
rejected by both endpoints. -/
theorem c7_no_instruction_rejected_witness :
    ProcessPdf.handler onePage {} = .badRequest ∧ AddText.handler onePage {} = .badRequest :=
  c7_no_instruction_rejected onePage (by decide) {} rfl (Or.inl rfl)
    (by intro wm h; cases h)

/-- C7 counterexample: a request whose `texts` is the empty array (and which
carries no text and no watermark) yields no placement instruction, yet
processPdf answers 200 and returns the document unchanged, not 400. -/
theorem c7_empty_texts_not_rejected_counterexample :
    ProcessPdf.handler onePage { texts := some [] } = .ok [] 1 := rfl

/-- C10: when both `pdfBase64` and `pdfUrl` are present (and `pdfBase64` is a
truthy string), processPdf decodes the base64 source; the URL branch is
never taken. -/
theorem c10_pdfbase64_precedence (s u : String) (hs : s ≠ "") :
    ProcessPdf.selectSource (some s) (some u) = .fromBase64 s := by
  simp [ProcessPdf.selectSource, hs]

/-- C10 witness. -/
theorem c10_pdfbase64_precedence_witness :
    ProcessPdf.selectSource (some "JVBERi0") (some "http:") = .fromBase64 "JVBERi0" :=
  c10_pdfbase64_precedence "JVBERi0" "http:" (by decide)

/-- C2 (amended): in processPdf, a watermark with `applyToAll` absent or true
is drawn exactly once per page (the drawn page indices are exactly
`0, …, N-1`), and with `applyToAll: false` exactly once, on page 0; in
addText the watermark is always drawn once per page, `applyToAll` being
ignored (see the counterexample). -/
theorem c2_watermark_target_pages (doc : List Page) (hd : doc ≠ []) (wm : WatermarkCfg)
    (hw : wm.text ≠ "") :
    (wm.applyToAll ≠ some false →
      ProcessPdf.handler doc (wmOnly wm)
        = .ok ((pageEnum doc).map fun ip => ProcessPdf.drawWm wm ip.1 ip.2) doc.length)
    ∧ (wm.applyToAll = some false →
      ProcessPdf.handler doc (wmOnly wm) = .ok [ProcessPdf.drawWm wm 0 doc.headI] doc.length
        ∧ (ProcessPdf.drawWm wm 0 doc.headI).pageIdx = 0)
    ∧ AddText.handler doc (wmOnly wm)
        = .ok ((pageEnum doc).map fun ip => AddText.drawWm wm ip.1 ip.2) doc.length
    ∧ ((pageEnum doc).map fun ip => (ProcessPdf.drawWm wm ip.1 ip.2).pageIdx)
        = List.range doc.length
    ∧ ((pageEnum doc).map fun ip => (AddText.drawWm wm ip.1 ip.2).pageIdx)
        = List.range doc.length := by
  have h0 : doc.length ≠ 0 := by simpa [List.length_eq_zero] using hd
  refine ⟨?_, ?_, ?_, ?_, ?_⟩
  · intro ha
    simp [ProcessPdf.handler, h0, wmOnly, ProcessPdf.wmOps, hw, ha,
      ProcessPdf.textIsUsable, hasWmText]
  · intro ha
    refine ⟨?_, rfl⟩
    simp [ProcessPdf.handler, h0, wmOnly, ProcessPdf.wmOps, hw, ha,
      ProcessPdf.textIsUsable, hasWmText]
  · simp [AddText.handler, h0, wmOnly, AddText.wmOps, hw,
      AddText.textIsUsable, hasWmText]
  · exact aux_pageEnum_pageIdx _ (fun i p => rfl) doc
  · exact aux_pageEnum_pageIdx _ (fun i p => rfl) doc

/-- C2 witness: with the default `applyToAll`, processPdf draws the
watermark on both pages of a two-page document. -/
theorem c2_watermark_target_pages_witness :
    ProcessPdf.handler twoPages (wmOnly wmCenter)
      = .ok ((pageEnum twoPages).map fun ip => ProcessPdf.drawWm wmCenter ip.1 ip.2) 2 :=
  (c2_watermark_target_pages twoPages (by decide) wmCenter (by decide)).1 (by decide)

/-- C2 counterexample: with `applyToAll: false` on a two-page document,
addText still draws the watermark twice (once per page), while the claim
demands exactly one rendering; processPdf does draw it once. -/
theorem c2_applytoall_ignored_counterexample :
    okOpsCount (AddText.handler twoPages (wmOnly wmFalse)) = 2
      ∧ okOpsCount (ProcessPdf.handler twoPages (wmOnly wmFalse)) = 1 :=
  ⟨rfl, rfl⟩

/-- Clamping an integer page number into `[0, N-1]` always lands on a real
page: the resulting JS array access is defined. -/
theorem aux_qIndex_int (N : ℕ) (hN : 1 ≤ N) (k : ℤ) :
    (qIndex N (max 0 (min ((N : ℚ) - 1) (k : ℚ)))).isSome = true := by
  have hcast : (max 0 (min ((N : ℚ) - 1) (k : ℚ)))
      = ((max 0 (min ((N : ℤ) - 1) k) : ℤ) : ℚ) := by
    push_cast
    rfl
  have hN' : (1 : ℤ) ≤ (N : ℤ) := by exact_mod_cast hN
  have h0 : (0 : ℤ) ≤ max 0 (min ((N : ℤ) - 1) k) := le_max_left 0 _
  have h1 : max 0 (min ((N : ℤ) - 1) k) < (N : ℤ) := by
    have hm : min ((N : ℤ) - 1) k ≤ (N : ℤ) - 1 := min_le_left _ _
    omega
  have hden : ((max 0 (min ((N : ℤ) - 1) k) : ℤ) : ℚ).den = 1 := Rat.intCast_den _
  have hnum : ((max 0 (min ((N : ℤ) - 1) k) : ℤ) : ℚ).num = max 0 (min ((N : ℤ) - 1) k) :=
    Rat.intCast_num _
  rw [hcast]
  unfold qIndex
  rw [if_pos ⟨hden, by rw [hnum]; exact h0, by rw [hnum]; exact h1⟩]
  rfl

/-- C4 (amended): when the coerced `pageNumber` is an integer (which includes
every absent or non-finite value, coerced to 0), applying a text instruction
never faults in either handler — out-of-range integers are silently clamped.
The claim's stronger version — that this also holds for non-integer numbers
such as 1.5 — is false: see the counterexample, where the clamped value
selects no page and the request fails with a 500. -/
theorem c4_integer_page_never_errors (doc : List Page) (hd : doc ≠ []) (t : TextCfg)
    (hk : ∃ k : ℤ, resolvePN t.pageNumber = (k : ℚ)) :
    (ProcessPdf.applyTextCfg doc t).isSome = true
      ∧ (AddText.applyTextCfg doc t).isSome = true := by
  obtain ⟨k, hk⟩ := hk
  have hN : 1 ≤ doc.length := Nat.one_le_iff_ne_zero.mpr (by simpa [List.length_eq_zero] using hd)
  have hq := aux_qIndex_int doc.length hN k
  constructor
  · unfold ProcessPdf.applyTextCfg resolvePage
    rw [hk]
    by_cases h1 : ((k : ℚ)) = -1
    · simp [h1]
    · rw [if_neg h1]
      by_cases ht : t.text = ""
      · simp [ht]
      · cases hqi : qIndex doc.length (max 0 (min ((doc.length : ℚ) - 1) (k : ℚ))) with
        | none => rw [hqi] at hq; simp at hq
        | some i => simp [ht, hqi]
  · unfold AddText.applyTextCfg resolvePage
    rw [hk]
    by_cases h1 : ((k : ℚ)) = -1
    · simp [h1]
    · rw [if_neg h1]
      by_cases ht : t.text = ""
      · simp [ht]
      · cases hqi : qIndex doc.length (max 0 (min ((doc.length : ℚ) - 1) (k : ℚ))) with
        | none => rw [hqi] at hq; simp at hq
        | some i => simp [ht, hqi]

/-- C4 witness: page number 7 on a one-page document is applied without an
error by both handlers. -/
theorem c4_integer_page_never_errors_witness :
    (ProcessPdf.applyTextCfg onePage
        ⟨"A", .undef, .undef, .num 7, .undef, none, .undef, .undef⟩).isSome = true
      ∧ (AddText.applyTextCfg onePage
        ⟨"A", .undef, .undef, .num 7, .undef, none, .undef, .undef⟩).isSome = true :=
  c4_integer_page_never_errors onePage (by decide) _
    ⟨7, by norm_num [resolvePN, coerceNum, jsNumber]⟩

/-- C4 counterexample: `pageNumber: 1.5` on a three-page document is NOT
coerced to an integer; the clamp leaves 1.5, `pages[1.5]` is `undefined`,
`drawText` throws, and both handlers answer 500 — the claim's
"never raises an error" fails. -/
theorem c4_fractional_page_counterexample :
    ProcessPdf.handler threePages { texts := some [tHalf] } = .serverError
      ∧ AddText.handler threePages { texts := some [tHalf] } = .serverError := by
  have hq : resolvePage (JSVal.num (3 / 2)) 3 = .singlePage (3 / 2) := by
    simp only [resolvePage, aux_resolvePN_num]
    norm_num
  have hqi : qIndex 3 (3 / 2) = none := by norm_num [qIndex]
  constructor
  · simp [ProcessPdf.handler, ProcessPdf.applyTexts, ProcessPdf.applyTextCfg, tHalf, hq, hqi,
      ProcessPdf.wmOps, threePages]
  · simp [AddText.handler, AddText.applyTexts, AddText.applyTextCfg, tHalf, hq, hqi,
      AddText.wmOps, threePages]

/-- processPdf's watermark pass reads only the `watermark` field. -/
theorem aux_wmOpsP_congr (doc : List Page) (b1 b2 : Body)
    (h : b1.watermark = b2.watermark) :
    ProcessPdf.wmOps doc b1 = ProcessPdf.wmOps doc b2 := by
  unfold ProcessPdf.wmOps
  rw [h]

/-- addText's watermark pass reads only the `watermark` field. -/
theorem aux_wmOpsA_congr (doc : List Page) (b1 b2 : Body)
    (h : b1.watermark = b2.watermark) :
    AddText.wmOps doc b1 = AddText.wmOps doc b2 := by
  unfold AddText.wmOps
  rw [h]

/-- The numeric string "100" coerces to the number 100. -/
theorem aux_coerceNum_str100 : coerceNum (.str "100") 50 = 100 := by
  have h : coerceNum (.str "100") 50 = (1 : ℚ) * ((natFromDigits ['1', '0', '0'] : ℕ) : ℚ) := rfl
  have h2 : natFromDigits ['1', '0', '0'] = 100 := rfl
  rw [h, h2]
  norm_num

/-- C5 (amended): a non-object colour input yields the default entirely
(processPdf: the caller's default, addText: black); a NON-NUMERIC channel
falls back per-channel — in processPdf to the default's corresponding
channel, in addText always to 0, so the watermark gray 0.5 is not restored
per-channel there; an out-of-range NUMERIC channel is clamped into `[0,1]`,
not replaced by the default (see the counterexample). -/
theorem c5_color_coercion :
    ProcessPdf.toColor none ⟨1 / 2, 1 / 2, 1 / 2⟩ = ⟨1 / 2, 1 / 2, 1 / 2⟩
      ∧ ProcessPdf.toColor none ⟨0, 0, 0⟩ = ⟨0, 0, 0⟩
      ∧ (∀ (g b : JSVal) (fb : Color), (ProcessPdf.toColor (some ⟨.undef, g, b⟩) fb).r = fb.r)
      ∧ (∀ (q : ℚ) (g b : JSVal) (fb : Color),
          (ProcessPdf.toColor (some ⟨.num q, g, b⟩) fb).r = max 0 (min 1 q))
      ∧ AddText.toColor none = ⟨0, 0, 0⟩
      ∧ (∀ (g b : JSVal), (AddText.toColor (some ⟨.undef, g, b⟩)).r = 0)
      ∧ (AddText.drawWm wmGrayBad 0 ⟨600, 400⟩).color = ⟨0, 1 / 5, 1 / 5⟩ := by
  refine ⟨?_, ?_, fun g b fb => rfl, fun q g b fb => rfl, rfl, fun g b => rfl, ?_⟩
  · norm_num [ProcessPdf.toColor, clamp01, jsNumber]
  · norm_num [ProcessPdf.toColor, clamp01, jsNumber]
  · norm_num [AddText.drawWm, AddText.toColor, wmGrayBad, clamp01, jsNumber]

/-- C5 counterexample: an out-of-range channel (`r: 2`) against the
watermark default `(0.5, 0.5, 0.5)` is clamped to 1 in processPdf — it does
NOT fall back to the default's 0.5; and in addText a non-numeric channel
falls back to 0, not to the default's corresponding channel. -/
theorem c5_out_of_range_not_default_counterexample :
    (ProcessPdf.toColor (some ⟨.num 2, .num 0, .num 0⟩) ⟨1 / 2, 1 / 2, 1 / 2⟩).r = 1
      ∧ (ProcessPdf.toColor (some ⟨.num 2, .num 0, .num 0⟩) ⟨1 / 2, 1 / 2, 1 / 2⟩).r ≠ 1 / 2
      ∧ (AddText.toColor (some ⟨.undef, .num (1 / 5), .num (1 / 5)⟩)).r = 0 := by
  refine ⟨?_, ?_, rfl⟩ <;>
    · norm_num [ProcessPdf.toColor, clamp01, jsNumber]

/-- C8: the legacy single-text request (text "X", page 0, any combination of
the optional style fields, any watermark) is handled exactly like the
equivalent one-element `texts` request, by both endpoints. -/
theorem c8_legacy_single_text_equivalence (doc : List Page) (x y fs op rot : JSVal)
    (c : Option RawColor) (w : Option WatermarkCfg) :
    ProcessPdf.handler doc (legacyBody x y fs op rot c w)
        = ProcessPdf.handler doc (textsBody x y fs op rot c w)
      ∧ AddText.handler doc (legacyBody x y fs op rot c w)
        = AddText.handler doc (textsBody x y fs op rot c w) := by
  have husP : ProcessPdf.textIsUsable (some "X") = true := rfl
  have husA : AddText.textIsUsable (some "X") = true := rfl
  constructor
  · by_cases h0 : doc.length = 0
    · simp [ProcessPdf.handler, h0]
    · cases happ : ProcessPdf.applyTextCfg doc (⟨"X", x, y, .num 0, fs, c, op, rot⟩ : TextCfg) with
      | none =>
        simp [ProcessPdf.handler, h0, legacyBody, textsBody, ProcessPdf.applyTexts, happ,
          husP, legacyCfg, resolvePN, coerceNum, jsNumber]
      | some ops =>
        simp [ProcessPdf.handler, h0, legacyBody, textsBody, ProcessPdf.applyTexts, happ,
          husP, legacyCfg, resolvePN, coerceNum, jsNumber]
        exact aux_wmOpsP_congr doc _ _ rfl
  · by_cases h0 : doc.length = 0
    · simp [AddText.handler, h0]
    · cases happ : AddText.applyTextCfg doc (⟨"X", x, y, .num 0, fs, c, op, rot⟩ : TextCfg) with
      | none =>
        simp [AddText.handler, h0, legacyBody, textsBody, AddText.applyTexts, happ,
          husA, legacyCfg, resolvePN, coerceNum, jsNumber]
      | some ops =>
        simp [AddText.handler, h0, legacyBody, textsBody, AddText.applyTexts, happ,
          husA, legacyCfg, resolvePN, coerceNum, jsNumber]
        exact aux_wmOpsA_congr doc _ _ rfl

/-- C9 (amended): processPdf coerces `x`/`y` with `Number(...)` — a numeric
string such as "100" is used as 100, and an absent or non-finite value gets
the default (50, 750), never an error; addText instead uses `x`/`y` only
when their `typeof` is number, so the numeric string "100" falls back to the
default 50 (see the counterexample) and `NaN` is passed through as-is. -/
theorem c9_coordinate_coercion :
    (∀ (i : ℕ) (t : TextCfg), (ProcessPdf.mkOp i t).x = .num (coerceNum t.x 50)
        ∧ (ProcessPdf.mkOp i t).y = .num (coerceNum t.y 750))
      ∧ coerceNum (.str "100") 50 = 100
      ∧ coerceNum .nan 50 = 50
      ∧ coerceNum .undef 750 = 750
      ∧ (∀ (i : ℕ) (t : TextCfg),
          (AddText.mkOp i t).x = if typeofNum t.x then t.x else .num 50)
      ∧ (AddText.mkOp 0 tStr100).x = .num 50
      ∧ (AddText.mkOp 0 tNanX).x = .nan :=
  ⟨fun _ _ => ⟨rfl, rfl⟩, aux_coerceNum_str100, rfl, rfl, fun _ _ => rfl, rfl, rfl⟩

/-- C9 counterexample: the same request — text "A" with `x: "100"` — is
drawn at x = 100 by processPdf but at the default x = 50 by addText, so the
claim's "x is coerced to a number, a numeric string is used numerically"
does not hold for addText. -/
theorem c9_string_coordinate_counterexample :
    ProcessPdf.handler onePage { texts := some [tStr100] }
        = .ok [⟨0, "A", .num 100, .num 750, 12, ⟨0, 0, 0⟩, 1, none⟩] 1
      ∧ AddText.handler onePage { texts := some [tStr100] }
        = .ok [⟨0, "A", .num 50, .num 750, 12, ⟨0, 0, 0⟩, 1, none⟩] 1 := by
  have hq : resolvePage JSVal.undef 1 = .singlePage 0 := by
    simp only [resolvePage, resolvePN, coerceNum, jsNumber]
    norm_num
  have hqi : qIndex 1 0 = some 0 := by norm_num [qIndex]
  have hcu : ∀ d : ℚ, coerceNum .undef d = d := fun d => rfl
  constructor
  · norm_num [ProcessPdf.handler, ProcessPdf.applyTexts, ProcessPdf.applyTextCfg,
      ProcessPdf.mkOp, ProcessPdf.wmOps, ProcessPdf.toColor, onePage, tStr100, hq, hqi,
      aux_coerceNum_str100, hcu, clamp01, jsNumber, typeofNum]
    rfl
  · norm_num [AddText.handler, AddText.applyTexts, AddText.applyTextCfg, AddText.mkOp,
      AddText.wmOps, AddText.toColor, onePage, tStr100, hq, hqi,
      hcu, clamp01, jsNumber, typeofNum]
    rfl
